import Mathlib

/-!
Shallow embedding of the point-cloud viewer core
(`point_cloud_renderer.h` / `point_cloud_renderer.cpp` and the
alternative axis-label implementations shipped alongside it).

Float-valued fields and arguments are modelled by exact rationals;
the sentinel values `std::numeric_limits<float>::max()` and
`::lowest()` used by `calculateBounds` are the exact rational value
of `FLT_MAX` and its negation.
-/

namespace PlotSpec

/-- One sample: position, color, intensity (struct Point3D). -/
structure Point3D where
  x : ℚ
  y : ℚ
  z : ℚ
  r : ℚ
  g : ℚ
  b : ℚ
  intensity : ℚ
deriving DecidableEq, Repr

/-- Camera state (class Camera): distance, yaw, pitch, look-at target, fov. -/
structure Camera where
  distance : ℚ
  yaw : ℚ
  pitch : ℚ
  targetX : ℚ
  targetY : ℚ
  targetZ : ℚ
  fov : ℚ
deriving DecidableEq, Repr

/-- Camera::reset: distance 10, yaw 45, pitch 30, target origin, fov 45. -/
def Camera.reset (_c : Camera) : Camera :=
  { distance := 10, yaw := 45, pitch := 30,
    targetX := 0, targetY := 0, targetZ := 0, fov := 45 }

/-- Camera::Camera() calls reset(). -/
def Camera.init : Camera :=
  Camera.reset { distance := 0, yaw := 0, pitch := 0,
                 targetX := 0, targetY := 0, targetZ := 0, fov := 0 }

/-- Camera::orbit: add deltas to yaw and pitch, then clamp pitch to
[-89, 89] by the two sequential `if` statements of the source. -/
def Camera.orbit (c : Camera) (deltaYaw deltaPitch : ℚ) : Camera :=
  let p1 := c.pitch + deltaPitch
  let p2 := if p1 > 89 then 89 else p1
  let p3 := if p2 < -89 then -89 else p2
  { c with yaw := c.yaw + deltaYaw, pitch := p3 }

/-- Camera::zoom: multiply distance by (1 - delta * 0.1), then clamp
below to 0.1 and above to 1000 by the two sequential `if` statements. -/
def Camera.zoom (c : Camera) (delta : ℚ) : Camera :=
  let d1 := c.distance * (1 - delta * (1/10))
  let d2 := if d1 < 1/10 then 1/10 else d1
  let d3 := if d2 > 1000 then 1000 else d2
  { c with distance := d3 }

/-- Camera::setTopView: yaw 0, pitch 89. -/
def Camera.setTopView (c : Camera) : Camera :=
  { c with yaw := 0, pitch := 89 }

/-- Camera::setFrontView: yaw 0, pitch 0. -/
def Camera.setFrontView (c : Camera) : Camera :=
  { c with yaw := 0, pitch := 0 }

/-- Camera::setSideView: yaw 90, pitch 0. -/
def Camera.setSideView (c : Camera) : Camera :=
  { c with yaw := 90, pitch := 0 }

/-- Camera::setIsometricView: yaw 45, pitch 35.26. -/
def Camera.setIsometricView (c : Camera) : Camera :=
  { c with yaw := 45, pitch := 3526/100 }

/-- Axis-aligned bounding box of the point store (the six min/max
fields of PointCloudRenderer). -/
structure Bounds where
  minX : ℚ
  maxX : ℚ
  minY : ℚ
  maxY : ℚ
  minZ : ℚ
  maxZ : ℚ
deriving DecidableEq, Repr

/-- Exact rational value of `std::numeric_limits<float>::max()`. -/
def floatMax : ℚ := (2 ^ 24 - 1) * 2 ^ 104

/-- One iteration of the bounds-accumulation loop in
PointCloudRenderer::calculateBounds. -/
def updateBounds (b : Bounds) (p : Point3D) : Bounds :=
  { minX := min b.minX p.x, maxX := max b.maxX p.x,
    minY := min b.minY p.y, maxY := max b.maxY p.y,
    minZ := min b.minZ p.z, maxZ := max b.maxZ p.z }

/-- PointCloudRenderer::calculateBounds: empty sequence collapses the
box to zero; otherwise fold min/max over all samples starting from the
float max/lowest sentinels. -/
def calculateBounds (points : List Point3D) : Bounds :=
  if points.isEmpty then
    { minX := 0, maxX := 0, minY := 0, maxY := 0, minZ := 0, maxZ := 0 }
  else
    points.foldl updateBounds
      { minX := floatMax, maxX := -floatMax,
        minY := floatMax, maxY := -floatMax,
        minZ := floatMax, maxZ := -floatMax }

/-- Color modes (enum ColorMode). -/
inductive ColorMode where
  | rgb
  | height
  | intensity
  | uniform
deriving DecidableEq, Repr

/-- Renderer state: point store, derived bounds, owned camera and the
scalar rendering configuration (class PointCloudRenderer). -/
structure PointCloudRenderer where
  points : List Point3D
  pointCount : ℕ
  pointSize : ℚ
  colorMode : ColorMode
  showGrid : Bool
  gridSpacing : ℚ
  gridSize : ℤ
  showAxisLabels : Bool
  camera : Camera
  bounds : Bounds
deriving DecidableEq, Repr

/-- PointCloudRenderer::PointCloudRenderer(): empty store, pointSize 2,
RGB color mode, grid shown with spacing 1 and size 10, labels shown,
zero bounds, default-constructed camera. -/
def PointCloudRenderer.init : PointCloudRenderer :=
  { points := [], pointCount := 0, pointSize := 2, colorMode := ColorMode.rgb,
    showGrid := true, gridSpacing := 1, gridSize := 10, showAxisLabels := true,
    camera := Camera.init,
    bounds := { minX := 0, maxX := 0, minY := 0, maxY := 0, minZ := 0, maxZ := 0 } }

/-- PointCloudRenderer::setPointCloud: replace the sequence, update the
count, recompute bounds, then recenter the camera on the box center and
set its distance to twice the largest box extent (no clamping). -/
def PointCloudRenderer.setPointCloud (s : PointCloudRenderer)
    (newPoints : List Point3D) : PointCloudRenderer :=
  let b := calculateBounds newPoints
  let sizeX := b.maxX - b.minX
  let sizeY := b.maxY - b.minY
  let sizeZ := b.maxZ - b.minZ
  let maxSize := max (max sizeX sizeY) sizeZ
  { s with
    points := newPoints,
    pointCount := newPoints.length,
    bounds := b,
    camera := { s.camera with
      targetX := (b.minX + b.maxX) * (1/2),
      targetY := (b.minY + b.maxY) * (1/2),
      targetZ := (b.minZ + b.maxZ) * (1/2),
      distance := maxSize * 2 } }

/-- PointCloudRenderer::clearPointCloud: empty the sequence and zero the
count; the stored bounds are not touched. -/
def PointCloudRenderer.clearPointCloud (s : PointCloudRenderer) : PointCloudRenderer :=
  { s with points := [], pointCount := 0 }

/-- PointCloudRenderer::setGridSpacing: store the argument unvalidated. -/
def PointCloudRenderer.setGridSpacing (s : PointCloudRenderer)
    (spacing : ℚ) : PointCloudRenderer :=
  { s with gridSpacing := spacing }

/-- Height color: t = (y - minY) / (maxY - minY),
color = (t, 1 - |t - 0.5| * 2, 1 - t); computed with no guard against
maxY == minY (COLOR_HEIGHT case of PointCloudRenderer::render). -/
def heightColor (minY maxY y : ℚ) : ℚ × ℚ × ℚ :=
  let t := (y - minY) / (maxY - minY)
  (t, 1 - |t - 1/2| * 2, 1 - t)

/-- Per-sample display color resolution (the colorMode switch inside
PointCloudRenderer::render). -/
def pointColor (mode : ColorMode) (b : Bounds) (p : Point3D) : ℚ × ℚ × ℚ :=
  match mode with
  | ColorMode.rgb => (p.r, p.g, p.b)
  | ColorMode.height => heightColor b.minY b.maxY p.y
  | ColorMode.intensity => (p.intensity, p.intensity, p.intensity)
  | ColorMode.uniform => (1, 1, 1)

/-- Label-thinning factor of the main renderAxisLabels implementation
(point_cloud_renderer.cpp, the file also holding Camera and the point
store): skip = 2 when the axis line count exceeds 10, else 1. -/
def skipPart003 (numLines : ℤ) : ℤ :=
  if numLines > 10 then 2 else 1

/-- Label-thinning factor of the alternative renderAxisLabels
implementation (screen-edge labels): 2 when the axis line count exceeds
15, overridden to 4 when it exceeds 30. -/
def skipPart002 (numLines : ℤ) : ℤ :=
  let s := if numLines > 15 then 2 else 1
  if numLines > 30 then 4 else s

/-- Modelled from the spec: the claimed thinning rule, every 2nd line
exactly when the count exceeds 15 and every 4th exactly when it exceeds
30, otherwise every line. Spec-side definition for comparison. -/
def skipSpec (numLines : ℤ) : ℤ :=
  if numLines > 30 then 4 else if numLines > 15 then 2 else 1

/-! ### Helper lemmas about the bounds fold -/

lemma foldl_updateBounds (pts : List Point3D) (b : Bounds) :
    pts.foldl updateBounds b =
      { minX := pts.foldl (fun a p => min a p.x) b.minX,
        maxX := pts.foldl (fun a p => max a p.x) b.maxX,
        minY := pts.foldl (fun a p => min a p.y) b.minY,
        maxY := pts.foldl (fun a p => max a p.y) b.maxY,
        minZ := pts.foldl (fun a p => min a p.z) b.minZ,
        maxZ := pts.foldl (fun a p => max a p.z) b.maxZ } := by
  induction pts generalizing b with
  | nil => rfl
  | cons p l ih => simp only [List.foldl_cons, ih, updateBounds]

lemma foldlMin_le_init (f : Point3D → ℚ) (l : List Point3D) (a : ℚ) :
    List.foldl (fun acc p => min acc (f p)) a l ≤ a := by
  induction l generalizing a with
  | nil => exact le_refl a
  | cons p l ih => exact le_trans (ih (min a (f p))) (min_le_left _ _)

lemma foldlMax_init_le (f : Point3D → ℚ) (l : List Point3D) (a : ℚ) :
    a ≤ List.foldl (fun acc p => max acc (f p)) a l := by
  induction l generalizing a with
  | nil => exact le_refl a
  | cons p l ih => exact le_trans (le_max_left _ _) (ih (max a (f p)))

lemma foldlMin_le_mem (f : Point3D → ℚ) :
    ∀ (l : List Point3D) (a : ℚ) (p : Point3D), p ∈ l →
      List.foldl (fun acc q => min acc (f q)) a l ≤ f p := by
  intro l
  induction l with
  | nil => intro a p hp; cases hp
  | cons q l ih =>
    intro a p hp
    rcases List.mem_cons.mp hp with h | h
    · subst h
      exact le_trans (foldlMin_le_init f l (min a (f p))) (min_le_right _ _)
    · exact ih (min a (f q)) p h

lemma foldlMax_mem_le (f : Point3D → ℚ) :
    ∀ (l : List Point3D) (a : ℚ) (p : Point3D), p ∈ l →
      f p ≤ List.foldl (fun acc q => max acc (f q)) a l := by
  intro l
  induction l with
  | nil => intro a p hp; cases hp
  | cons q l ih =>
    intro a p hp
    rcases List.mem_cons.mp hp with h | h
    · subst h
      exact le_trans (le_max_right _ _) (foldlMax_init_le f l (max a (f p)))
    · exact ih (max a (f q)) p h

lemma foldlMin_attained (f : Point3D → ℚ) (l : List Point3D) (a : ℚ) :
    List.foldl (fun acc q => min acc (f q)) a l = a ∨
      ∃ p ∈ l, List.foldl (fun acc q => min acc (f q)) a l = f p := by
  induction l generalizing a with
  | nil => exact Or.inl rfl
  | cons q l ih =>
    rcases ih (min a (f q)) with h | ⟨p, hp, he⟩
    · rcases min_choice a (f q) with hm | hm
      · exact Or.inl (h.trans hm)
      · exact Or.inr ⟨q, List.mem_cons_self q l, h.trans hm⟩
    · exact Or.inr ⟨p, List.mem_cons_of_mem q hp, he⟩

lemma foldlMax_attained (f : Point3D → ℚ) (l : List Point3D) (a : ℚ) :
    List.foldl (fun acc q => max acc (f q)) a l = a ∨
      ∃ p ∈ l, List.foldl (fun acc q => max acc (f q)) a l = f p := by
  induction l generalizing a with
  | nil => exact Or.inl rfl
  | cons q l ih =>
    rcases ih (max a (f q)) with h | ⟨p, hp, he⟩
    · rcases max_choice a (f q) with hm | hm
      · exact Or.inl (h.trans hm)
      · exact Or.inr ⟨q, List.mem_cons_self q l, h.trans hm⟩
    · exact Or.inr ⟨p, List.mem_cons_of_mem q hp, he⟩

lemma foldlMin_attained_of_le (f : Point3D → ℚ) (l : List Point3D) (a : ℚ)
    (hne : l ≠ []) (hb : ∀ p ∈ l, f p ≤ a) :
    ∃ p ∈ l, List.foldl (fun acc q => min acc (f q)) a l = f p := by
  rcases foldlMin_attained f l a with h | h
  · obtain ⟨p, hp⟩ := List.exists_mem_of_ne_nil l hne
    exact ⟨p, hp, le_antisymm (foldlMin_le_mem f l a p hp) ((hb p hp).trans h.ge)⟩
  · exact h

lemma foldlMax_attained_of_le (f : Point3D → ℚ) (l : List Point3D) (a : ℚ)
    (hne : l ≠ []) (hb : ∀ p ∈ l, a ≤ f p) :
    ∃ p ∈ l, List.foldl (fun acc q => max acc (f q)) a l = f p := by
  rcases foldlMax_attained f l a with h | h
  · obtain ⟨p, hp⟩ := List.exists_mem_of_ne_nil l hne
    exact ⟨p, hp, le_antisymm (h.le.trans (hb p hp)) (foldlMax_mem_le f l a p hp)⟩
  · exact h

lemma calculateBounds_eq (pts : List Point3D) (hne : pts ≠ []) :
    calculateBounds pts =
      { minX := pts.foldl (fun a p => min a p.x) floatMax,
        maxX := pts.foldl (fun a p => max a p.x) (-floatMax),
        minY := pts.foldl (fun a p => min a p.y) floatMax,
        maxY := pts.foldl (fun a p => max a p.y) (-floatMax),
        minZ := pts.foldl (fun a p => min a p.z) floatMax,
        maxZ := pts.foldl (fun a p => max a p.z) (-floatMax) } := by
  unfold calculateBounds
  rw [if_neg (by simpa [List.isEmpty_iff] using hne), foldl_updateBounds]

/-! ### Concrete inputs used by counterexamples and witnesses -/

/-- A sample at position (1, 2, 3) with white color and full intensity. -/
def samplePoint : Point3D :=
  { x := 1, y := 2, z := 3, r := 1, g := 1, b := 1, intensity := 1 }

/-- Two samples spanning the cube with corners (-5,-5,-5) and (5,5,5). -/
def cubePts : List Point3D :=
  [{ x := -5, y := -5, z := -5, r := 1, g := 1, b := 1, intensity := 1 },
   { x := 5, y := 5, z := 5, r := 1, g := 1, b := 1, intensity := 1 }]

/-! ### C1: staleness of the bounding box -/

/-- C1 is false as stated: after clearPointCloud the stored bounds are
the previous cloud's bounds, not those recomputed from the (now empty)
sequence. Concrete run: set one point at (1,2,3), then clear. -/
theorem C1_counterexample :
    ((PointCloudRenderer.init.setPointCloud [samplePoint]).clearPointCloud).bounds ≠
      calculateBounds
        ((PointCloudRenderer.init.setPointCloud [samplePoint]).clearPointCloud).points := by
  norm_num [PointCloudRenderer.setPointCloud, PointCloudRenderer.clearPointCloud,
    PointCloudRenderer.init, calculateBounds, updateBounds, samplePoint, floatMax,
    min_def, max_def]

/-- C1 (amended): setPointCloud synchronously stores the bounds
recomputed from the new sequence, so its bounding box is stale-free;
clearPointCloud empties the sequence and zeroes the count but leaves the
stored bounds unchanged from before the clear. -/
theorem C1_bounds_after_update (s : PointCloudRenderer) (pts : List Point3D) :
    (s.setPointCloud pts).bounds = calculateBounds pts ∧
    (s.clearPointCloud).bounds = s.bounds ∧
    (s.clearPointCloud).points = [] ∧
    (s.clearPointCloud).pointCount = 0 :=
  ⟨rfl, rfl, rfl, rfl⟩

/-! ### C2: camera distance range -/

/-- C2 is false as stated: setPointCloud with the empty sequence leaves
camera distance 0, which is not strictly positive (nor within
[0.1, 1000]). -/
theorem C2_counterexample :
    (PointCloudRenderer.init.setPointCloud []).camera.distance = 0 ∧
    ¬ (0 < (PointCloudRenderer.init.setPointCloud []).camera.distance) := by
  constructor
  · norm_num [PointCloudRenderer.setPointCloud, PointCloudRenderer.init, calculateBounds]
  · norm_num [PointCloudRenderer.setPointCloud, PointCloudRenderer.init, calculateBounds]

/-- C2 (amended): reset and zoom always leave distance in [0.1, 1000]
(reset sets exactly 10); setPointCloud instead sets distance to twice
the largest bounding-box extent with no clamping, and for the empty
sequence the resulting distance is 0. -/
theorem C2_distance_range :
    (∀ c : Camera, (Camera.reset c).distance = 10 ∧
      1/10 ≤ (Camera.reset c).distance ∧ (Camera.reset c).distance ≤ 1000) ∧
    (∀ (c : Camera) (delta : ℚ),
      1/10 ≤ (c.zoom delta).distance ∧ (c.zoom delta).distance ≤ 1000) ∧
    (∀ (s : PointCloudRenderer) (pts : List Point3D),
      (s.setPointCloud pts).camera.distance =
        max (max ((calculateBounds pts).maxX - (calculateBounds pts).minX)
                 ((calculateBounds pts).maxY - (calculateBounds pts).minY))
            ((calculateBounds pts).maxZ - (calculateBounds pts).minZ) * 2) ∧
    (∀ s : PointCloudRenderer, (s.setPointCloud []).camera.distance = 0) := by
  refine ⟨fun c => ⟨rfl, by norm_num [Camera.reset], by norm_num [Camera.reset]⟩,
    fun c delta => ?_, fun s pts => rfl, fun s => ?_⟩
  · dsimp only [Camera.zoom]
    split_ifs <;> constructor <;> linarith
  · norm_num [PointCloudRenderer.setPointCloud, calculateBounds]

/-! ### C3: camera recentering on replacement -/

/-- C3: after setPointCloud the camera target is the bounding-box center
and the distance is twice the largest extent; for a sequence whose
bounding box is exactly the cube with corners -5 and 5 on each axis the
target is the origin and the distance is 20. -/
theorem C3_setPointCloud_recenters :
    (∀ (s : PointCloudRenderer) (pts : List Point3D),
      (s.setPointCloud pts).camera.targetX =
        ((calculateBounds pts).minX + (calculateBounds pts).maxX) * (1/2) ∧
      (s.setPointCloud pts).camera.targetY =
        ((calculateBounds pts).minY + (calculateBounds pts).maxY) * (1/2) ∧
      (s.setPointCloud pts).camera.targetZ =
        ((calculateBounds pts).minZ + (calculateBounds pts).maxZ) * (1/2) ∧
      (s.setPointCloud pts).camera.distance =
        max (max ((calculateBounds pts).maxX - (calculateBounds pts).minX)
                 ((calculateBounds pts).maxY - (calculateBounds pts).minY))
            ((calculateBounds pts).maxZ - (calculateBounds pts).minZ) * 2) ∧
    (∀ (s : PointCloudRenderer) (pts : List Point3D),
      calculateBounds pts =
          { minX := -5, maxX := 5, minY := -5, maxY := 5, minZ := -5, maxZ := 5 } →
        (s.setPointCloud pts).camera.targetX = 0 ∧
        (s.setPointCloud pts).camera.targetY = 0 ∧
        (s.setPointCloud pts).camera.targetZ = 0 ∧
        (s.setPointCloud pts).camera.distance = 20) := by
  refine ⟨fun s pts => ⟨rfl, rfl, rfl, rfl⟩, fun s pts h => ?_⟩
  have hx : (s.setPointCloud pts).camera.targetX =
      ((calculateBounds pts).minX + (calculateBounds pts).maxX) * (1/2) := rfl
  have hy : (s.setPointCloud pts).camera.targetY =
      ((calculateBounds pts).minY + (calculateBounds pts).maxY) * (1/2) := rfl
  have hz : (s.setPointCloud pts).camera.targetZ =
      ((calculateBounds pts).minZ + (calculateBounds pts).maxZ) * (1/2) := rfl
  have hd : (s.setPointCloud pts).camera.distance =
      max (max ((calculateBounds pts).maxX - (calculateBounds pts).minX)
               ((calculateBounds pts).maxY - (calculateBounds pts).minY))
          ((calculateBounds pts).maxZ - (calculateBounds pts).minZ) * 2 := rfl
  rw [hx, hy, hz, hd, h]
  norm_num [max_def]

/-- C3 witness: the two-point cloud spanning the cube [-5,5]^3. -/
theorem C3_witness :
    (PointCloudRenderer.init.setPointCloud cubePts).camera.targetX = 0 ∧
    (PointCloudRenderer.init.setPointCloud cubePts).camera.targetY = 0 ∧
    (PointCloudRenderer.init.setPointCloud cubePts).camera.targetZ = 0 ∧
    (PointCloudRenderer.init.setPointCloud cubePts).camera.distance = 20 :=
  C3_setPointCloud_recenters.2 PointCloudRenderer.init cubePts
    (by norm_num [cubePts, calculateBounds, updateBounds, floatMax, min_def, max_def])

/-! ### C4: correctness of calculateBounds -/

/-- C4: for every non-empty sequence the recomputed box encloses every
sample on every axis, and (for samples whose coordinates lie in the
float-representable range, below the FLT_MAX sentinels) every stored min
and max is attained by some sample; the empty sequence yields the
all-zero degenerate box. -/
theorem C4_calculateBounds_correct :
    (calculateBounds [] =
      { minX := 0, maxX := 0, minY := 0, maxY := 0, minZ := 0, maxZ := 0 }) ∧
    ∀ pts : List Point3D, pts ≠ [] →
      (∀ p ∈ pts,
        ((calculateBounds pts).minX ≤ p.x ∧ p.x ≤ (calculateBounds pts).maxX) ∧
        ((calculateBounds pts).minY ≤ p.y ∧ p.y ≤ (calculateBounds pts).maxY) ∧
        ((calculateBounds pts).minZ ≤ p.z ∧ p.z ≤ (calculateBounds pts).maxZ)) ∧
      ((∀ p ∈ pts, |p.x| ≤ floatMax ∧ |p.y| ≤ floatMax ∧ |p.z| ≤ floatMax) →
        (∃ p ∈ pts, (calculateBounds pts).minX = p.x) ∧
        (∃ p ∈ pts, (calculateBounds pts).maxX = p.x) ∧
        (∃ p ∈ pts, (calculateBounds pts).minY = p.y) ∧
        (∃ p ∈ pts, (calculateBounds pts).maxY = p.y) ∧
        (∃ p ∈ pts, (calculateBounds pts).minZ = p.z) ∧
        (∃ p ∈ pts, (calculateBounds pts).maxZ = p.z)) := by
  refine ⟨rfl, fun pts hne => ⟨fun p hp => ?_, fun hrange => ?_⟩⟩
  · rw [calculateBounds_eq pts hne]
    exact ⟨⟨foldlMin_le_mem _ pts floatMax p hp, foldlMax_mem_le _ pts (-floatMax) p hp⟩,
      ⟨foldlMin_le_mem _ pts floatMax p hp, foldlMax_mem_le _ pts (-floatMax) p hp⟩,
      ⟨foldlMin_le_mem _ pts floatMax p hp, foldlMax_mem_le _ pts (-floatMax) p hp⟩⟩
  · rw [calculateBounds_eq pts hne]
    refine ⟨?_, ?_, ?_, ?_, ?_, ?_⟩
    · exact foldlMin_attained_of_le _ pts floatMax hne
        (fun p hp => (abs_le.mp (hrange p hp).1).2)
    · exact foldlMax_attained_of_le _ pts (-floatMax) hne
        (fun p hp => (abs_le.mp (hrange p hp).1).1)
    · exact foldlMin_attained_of_le _ pts floatMax hne
        (fun p hp => (abs_le.mp (hrange p hp).2.1).2)
    · exact foldlMax_attained_of_le _ pts (-floatMax) hne
        (fun p hp => (abs_le.mp (hrange p hp).2.1).1)
    · exact foldlMin_attained_of_le _ pts floatMax hne
        (fun p hp => (abs_le.mp (hrange p hp).2.2).2)
    · exact foldlMax_attained_of_le _ pts (-floatMax) hne
        (fun p hp => (abs_le.mp (hrange p hp).2.2).1)

/-- C4 witness: the concrete cube-spanning two-sample sequence. -/
theorem C4_witness :
    (∃ p ∈ cubePts, (calculateBounds cubePts).minX = p.x) ∧
    (∃ p ∈ cubePts, (calculateBounds cubePts).maxX = p.x) ∧
    (∃ p ∈ cubePts, (calculateBounds cubePts).minY = p.y) ∧
    (∃ p ∈ cubePts, (calculateBounds cubePts).maxY = p.y) ∧
    (∃ p ∈ cubePts, (calculateBounds cubePts).minZ = p.z) ∧
    (∃ p ∈ cubePts, (calculateBounds cubePts).maxZ = p.z) :=
  (C4_calculateBounds_correct.2 cubePts (by simp [cubePts])).2
    (by
      intro p hp
      rcases List.mem_cons.mp hp with h | h
      · subst h; norm_num [floatMax]
      · rcases List.mem_singleton.mp h with rfl
        norm_num [floatMax])

/-! ### C5: height color mode -/

/-- Bounds with Y extent from 0 to 10, used for the C5 witness. -/
def heightBounds : Bounds :=
  { minX := 0, maxX := 0, minY := 0, maxY := 10, minZ := 0, maxZ := 0 }

/-- The mid-height sample with y = 5 used for the C5 witness. -/
def midPoint : Point3D :=
  { x := 0, y := 5, z := 0, r := 1, g := 1, b := 1, intensity := 1 }

/-- C5: in height mode the display color follows
t = (y - minY) / (maxY - minY), color = (t, 1 - |t - 1/2| * 2, 1 - t);
the three samples with y = 0, 5, 10 under bounds minY = 0, maxY = 10
give t = 0, 1/2, 1 and colors (0,0,1), (1/2,1,1/2), (1,0,0); the same
formula is applied with no guard when maxY = minY. -/
theorem C5_height_color (b : Bounds) (p : Point3D) (_h : b.minY < b.maxY) :
    pointColor ColorMode.height b p =
      ((p.y - b.minY) / (b.maxY - b.minY),
       1 - |(p.y - b.minY) / (b.maxY - b.minY) - 1/2| * 2,
       1 - (p.y - b.minY) / (b.maxY - b.minY)) ∧
    heightColor 0 10 0 = (0, 0, 1) ∧
    heightColor 0 10 5 = (1/2, 1, 1/2) ∧
    heightColor 0 10 10 = (1, 0, 0) ∧
    (∀ (b' : Bounds) (p' : Point3D), b'.minY = b'.maxY →
      pointColor ColorMode.height b' p' = heightColor b'.minY b'.maxY p'.y) := by
  refine ⟨rfl, ?_, ?_, ?_, fun b' p' _ => rfl⟩
  · norm_num [heightColor, abs_of_nonneg, abs_of_nonpos]
  · norm_num [heightColor]
  · norm_num [heightColor, abs_of_nonneg, abs_of_nonpos]

/-- C5 witness: bounds minY = 0, maxY = 10 with the y = 5 sample. -/
theorem C5_witness :
    pointColor ColorMode.height heightBounds midPoint =
      ((midPoint.y - heightBounds.minY) / (heightBounds.maxY - heightBounds.minY),
       1 - |(midPoint.y - heightBounds.minY) /
              (heightBounds.maxY - heightBounds.minY) - 1/2| * 2,
       1 - (midPoint.y - heightBounds.minY) /
             (heightBounds.maxY - heightBounds.minY)) ∧
    heightColor 0 10 0 = (0, 0, 1) ∧
    heightColor 0 10 5 = (1/2, 1, 1/2) ∧
    heightColor 0 10 10 = (1, 0, 0) ∧
    (∀ (b' : Bounds) (p' : Point3D), b'.minY = b'.maxY →
      pointColor ColorMode.height b' p' = heightColor b'.minY b'.maxY p'.y) :=
  C5_height_color heightBounds midPoint (by norm_num [heightBounds])

/-! ### C6: zoom formula and distance clamping -/

lemma zoom_distance_range (c : Camera) (delta : ℚ) :
    1/10 ≤ (c.zoom delta).distance ∧ (c.zoom delta).distance ≤ 1000 := by
  dsimp only [Camera.zoom]
  split_ifs <;> constructor <;> linarith

lemma foldl_zoom_range (ds : List ℚ) :
    ∀ c : Camera, 1/10 ≤ c.distance → c.distance ≤ 1000 →
      1/10 ≤ (ds.foldl Camera.zoom c).distance ∧
      (ds.foldl Camera.zoom c).distance ≤ 1000 := by
  induction ds with
  | nil => exact fun c h1 h2 => ⟨h1, h2⟩
  | cons d ds ih =>
    intro c _ _
    exact ih (c.zoom d) (zoom_distance_range c d).1 (zoom_distance_range c d).2

/-- C6: zoom multiplies distance by (1 - delta/10) and clamps the result
into [0.1, 1000]; consequently any sequence of zoom calls started from a
distance in [0.1, 1000] stays in [0.1, 1000]; from distance 10 (the
reset value), zoom 100 yields 0.1 and zoom -1000 yields 1000. -/
theorem C6_zoom (c : Camera) (ds : List ℚ)
    (h1 : 1/10 ≤ c.distance) (h2 : c.distance ≤ 1000) :
    (∀ delta : ℚ, (c.zoom delta).distance =
      min (max (c.distance * (1 - delta * (1/10))) (1/10)) 1000) ∧
    (1/10 ≤ (ds.foldl Camera.zoom c).distance ∧
      (ds.foldl Camera.zoom c).distance ≤ 1000) ∧
    (((Camera.reset c).zoom 100).distance = 1/10 ∧
      ((Camera.reset c).zoom (-1000)).distance = 1000) := by
  refine ⟨fun delta => ?_, foldl_zoom_range ds c h1 h2, ?_, ?_⟩
  · dsimp only [Camera.zoom]
    rw [min_def, max_def]
    split_ifs <;> first | rfl | linarith
  · norm_num [Camera.zoom, Camera.reset]
  · norm_num [Camera.zoom, Camera.reset]

/-- C6 witness: the default camera (distance 10) and the sequence of one
zoom by 100. -/
theorem C6_witness :
    (∀ delta : ℚ, (Camera.init.zoom delta).distance =
      min (max (Camera.init.distance * (1 - delta * (1/10))) (1/10)) 1000) ∧
    (1/10 ≤ (([100] : List ℚ).foldl Camera.zoom Camera.init).distance ∧
      (([100] : List ℚ).foldl Camera.zoom Camera.init).distance ≤ 1000) ∧
    (((Camera.reset Camera.init).zoom 100).distance = 1/10 ∧
      ((Camera.reset Camera.init).zoom (-1000)).distance = 1000) :=
  C6_zoom Camera.init [100]
    (by norm_num [Camera.init, Camera.reset])
    (by norm_num [Camera.init, Camera.reset])

/-! ### C7: orbit idempotence at zero and pitch clamping -/

lemma orbit_zero_eq (c : Camera) (h1 : -89 ≤ c.pitch) (h2 : c.pitch ≤ 89) :
    c.orbit 0 0 = c := by
  simp only [Camera.orbit, add_zero]
  split_ifs <;> first | rfl | (exfalso; linarith)

lemma orbit_pitch_range (c : Camera) (dy dp : ℚ) :
    -89 ≤ (c.orbit dy dp).pitch ∧ (c.orbit dy dp).pitch ≤ 89 := by
  dsimp only [Camera.orbit]
  split_ifs <;> constructor <;> linarith

lemma foldl_orbit_pitch_range (ds : List (ℚ × ℚ)) :
    ∀ c : Camera, -89 ≤ c.pitch → c.pitch ≤ 89 →
      -89 ≤ (ds.foldl (fun cc d => cc.orbit d.1 d.2) c).pitch ∧
      (ds.foldl (fun cc d => cc.orbit d.1 d.2) c).pitch ≤ 89 := by
  induction ds with
  | nil => exact fun c h1 h2 => ⟨h1, h2⟩
  | cons d ds ih =>
    intro c _ _
    exact ih (c.orbit d.1 d.2) (orbit_pitch_range c d.1 d.2).1
      (orbit_pitch_range c d.1 d.2).2

/-- C7: orbit with zero deltas, iterated any number of times, leaves the
camera unchanged (hence yaw and pitch unchanged); any sequence of orbit
calls started from a pitch in [-89, 89] keeps pitch in [-89, 89]; and
orbit 0 1000 drives pitch to exactly 89. -/
theorem C7_orbit (c : Camera) (h1 : -89 ≤ c.pitch) (h2 : c.pitch ≤ 89) :
    (∀ n : ℕ, (fun cc : Camera => cc.orbit 0 0)^[n] c = c) ∧
    (∀ ds : List (ℚ × ℚ),
      -89 ≤ (ds.foldl (fun cc d => cc.orbit d.1 d.2) c).pitch ∧
      (ds.foldl (fun cc d => cc.orbit d.1 d.2) c).pitch ≤ 89) ∧
    (c.orbit 0 1000).pitch = 89 := by
  refine ⟨fun n => ?_, fun ds => foldl_orbit_pitch_range ds c h1 h2, ?_⟩
  · induction n with
    | zero => rfl
    | succ n ih => rw [Function.iterate_succ_apply', ih, orbit_zero_eq c h1 h2]
  · dsimp only [Camera.orbit]
    split_ifs <;> linarith

/-- C7 witness: the default camera (pitch 30). -/
theorem C7_witness :
    (∀ n : ℕ, (fun cc : Camera => cc.orbit 0 0)^[n] Camera.init = Camera.init) ∧
    (∀ ds : List (ℚ × ℚ),
      -89 ≤ (ds.foldl (fun cc d => cc.orbit d.1 d.2) Camera.init).pitch ∧
      (ds.foldl (fun cc d => cc.orbit d.1 d.2) Camera.init).pitch ≤ 89) ∧
    (Camera.init.orbit 0 1000).pitch = 89 :=
  C7_orbit Camera.init
    (by norm_num [Camera.init, Camera.reset])
    (by norm_num [Camera.init, Camera.reset])

/-! ### C8: axis-label thinning thresholds -/

/-- C8 is false as stated on the main implementation: at a line count of
12, which does not exceed 15, the code already labels only every 2nd
grid line instead of every line. -/
theorem C8_counterexample : skipPart003 12 = 2 ∧ ¬ (15 < (12 : ℤ)) := by
  constructor
  · norm_num [skipPart003]
  · norm_num

/-- C8 (amended): the main implementation thins each axis to every 2nd
grid line exactly when that axis's line count exceeds 10 and never
thins to every 4th; the alternative screen-edge implementation follows
the claimed per-axis rule (2 above 15, 4 above 30, otherwise none). -/
theorem C8_label_thinning (n : ℤ) :
    skipPart003 n = (if 10 < n then 2 else 1) ∧
    skipPart003 n ≠ 4 ∧
    skipPart002 n = skipSpec n := by
  refine ⟨rfl, ?_, ?_⟩
  · dsimp only [skipPart003]
    split_ifs <;> norm_num
  · dsimp only [skipPart002, skipSpec]

/-! ### C9: grid spacing positivity -/

/-- C9 is false as stated: setGridSpacing accepts any argument, so
setting spacing 0 yields a non-positive stored gridSpacing. -/
theorem C9_counterexample :
    ¬ (0 < (PointCloudRenderer.init.setGridSpacing 0).gridSpacing) := by
  norm_num [PointCloudRenderer.setGridSpacing, PointCloudRenderer.init]

/-- C9 (amended): the constructor default gridSpacing is 1, which is
positive, but setGridSpacing stores its argument unvalidated, so the
stored spacing is positive exactly when the argument is. -/
theorem C9_grid_spacing (s : PointCloudRenderer) (spacing : ℚ) :
    PointCloudRenderer.init.gridSpacing = 1 ∧
    (0 : ℚ) < PointCloudRenderer.init.gridSpacing ∧
    (s.setGridSpacing spacing).gridSpacing = spacing ∧
    (0 < (s.setGridSpacing spacing).gridSpacing ↔ 0 < spacing) :=
  ⟨rfl, by norm_num [PointCloudRenderer.init], rfl, Iff.rfl⟩

/-! ### C10: frame conditions of the camera operations -/

/-- C10: the four view presets change only yaw and pitch (distance,
target and fov are untouched); orbit likewise leaves distance, target
and fov untouched; zoom changes only distance (yaw, pitch, target and
fov are untouched) — for every prior state and every argument. -/
theorem C10_frame_conditions (c : Camera) (a b : ℚ) :
    (c.setTopView.distance = c.distance ∧ c.setTopView.targetX = c.targetX ∧
      c.setTopView.targetY = c.targetY ∧ c.setTopView.targetZ = c.targetZ ∧
      c.setTopView.fov = c.fov) ∧
    (c.setFrontView.distance = c.distance ∧ c.setFrontView.targetX = c.targetX ∧
      c.setFrontView.targetY = c.targetY ∧ c.setFrontView.targetZ = c.targetZ ∧
      c.setFrontView.fov = c.fov) ∧
    (c.setSideView.distance = c.distance ∧ c.setSideView.targetX = c.targetX ∧
      c.setSideView.targetY = c.targetY ∧ c.setSideView.targetZ = c.targetZ ∧
      c.setSideView.fov = c.fov) ∧
    (c.setIsometricView.distance = c.distance ∧
      c.setIsometricView.targetX = c.targetX ∧
      c.setIsometricView.targetY = c.targetY ∧
      c.setIsometricView.targetZ = c.targetZ ∧
      c.setIsometricView.fov = c.fov) ∧
    ((c.orbit a b).distance = c.distance ∧ (c.orbit a b).targetX = c.targetX ∧
      (c.orbit a b).targetY = c.targetY ∧ (c.orbit a b).targetZ = c.targetZ ∧
      (c.orbit a b).fov = c.fov) ∧
    ((c.zoom a).yaw = c.yaw ∧ (c.zoom a).pitch = c.pitch ∧
      (c.zoom a).targetX = c.targetX ∧ (c.zoom a).targetY = c.targetY ∧
      (c.zoom a).targetZ = c.targetZ ∧ (c.zoom a).fov = c.fov) :=
  ⟨⟨rfl, rfl, rfl, rfl, rfl⟩, ⟨rfl, rfl, rfl, rfl, rfl⟩,
   ⟨rfl, rfl, rfl, rfl, rfl⟩, ⟨rfl, rfl, rfl, rfl, rfl⟩,
   ⟨rfl, rfl, rfl, rfl, rfl⟩, ⟨rfl, rfl, rfl, rfl, rfl, rfl⟩⟩

end PlotSpec
